import Mathlib

/-!
Shallow embedding of the concurrency-safe JSON persistence layer of
src/user-control.js.

The JavaScript module exports two operations on the backing file
usuarios.json, both wrapped in an advisory file lock:

  - comLock(fn)          : acquire the lock (with retries), run fn, release
                           the lock in a finally block (release errors are
                           logged and swallowed);
  - lerUsuarios(num)     : read the file, trim, parse as JSON, apply the
                           limit-selection branch cascade, with a catch-all
                           returning the empty array;
  - salvarUsuarios(xs)   : JSON.stringify(xs, null, 2) and overwrite the
                           file, with a catch-all that swallows write errors.

Host functions (the JavaScript runtime and libraries, not repository code)
are modelled as follows:

  - JSON values are the inductive type Json below; JS numbers are
    abstracted as integers (every value in the claims is integral);
  - JSON.parse is an abstract parameter jparse : String -> Option Json
    (none models a thrown SyntaxError); theorems that need the host
    codec's round-trip property take it as an explicit hypothesis;
  - JSON.stringify(v, null, 2) is the concrete function stringify2 below,
    reproducing the pretty-printing layout of the host function;
  - String.prototype.trim is jsTrim (ASCII whitespace; the host also trims
    some rarer Unicode space characters, which no claim exercises);
  - proper-lockfile's lock() with retries is modelled by the sequence of
    per-attempt outcomes attemptOk and the disjunction lockAcquired;
    release() failure is the flag releaseOk;
  - fs.readFile / fs.writeFile outcomes are the flags readOk / writeOk,
    and the file content is threaded explicitly as a String state.
-/

/-- JSON values as produced by JSON.parse and consumed by JSON.stringify.
Object field lists carry the JS object's own enumerable properties in
insertion order; JS objects cannot hold a duplicate key, so the lists
representing parse results have pairwise distinct keys. -/
inductive Json where
  | null
  | bool (b : Bool)
  | num (n : Int)
  | str (s : String)
  | arr (elems : List Json)
  | obj (fields : List (String × Json))
deriving Repr

/-- Errors that can escape an async call in the embedded module. Lock
acquisition failure is the only error comLock lets escape of its own;
js covers errors thrown by a wrapped action in the generic lemmas. -/
inductive JSError where
  | lockAcquisition
  | js (msg : String)
deriving Repr

/-- Outcome of an awaited JS call: resolved value or rejected error. -/
inductive JSResult (α : Type) where
  | ok (a : α)
  | err (e : JSError)
deriving Repr

/-- Observable outcome of one comLock call: the settled result, the backing
file state after the call, whether the wrapped action ran, and how many
times the lock release function was invoked. -/
structure LockOutcome (σ : Type) (α : Type) where
  result : JSResult α
  state : σ
  actionRan : Bool
  releaseCalls : Nat
  releaseFailures : Nat
deriving Repr

/-- Number of lock acquisition attempts: one initial try plus the
retries: 5 configured in the lockfile.lock options of comLock. -/
def lockAttempts : Nat := 6

/-- Acquisition succeeds iff some attempt within the configured bound
succeeds; lockfile.lock rejects after exhausting the retries. -/
def lockAcquired (attemptOk : Nat → Bool) : Bool :=
  (List.range lockAttempts).any attemptOk

/-- Models comLock of src/user-control.js lines 22-41. release is assigned
only when lockfile.lock resolves, so the finally block calls it exactly
when acquisition succeeded; a release error is caught and logged (counted
in releaseFailures, never altering the result), and the wrapped action's
own result or error always propagates. On acquisition failure the action
never runs and the error rejects the call. The wrapped action is a state
transformer on the backing file content. -/
def comLock {σ α : Type} (attemptOk : Nat → Bool) (releaseOk : Bool)
    (fn : σ → JSResult α × σ) (s : σ) : LockOutcome σ α :=
  if lockAcquired attemptOk then
    let r := fn s
    { result := r.1, state := r.2, actionRan := true, releaseCalls := 1,
      releaseFailures := if releaseOk then 0 else 1 }
  else
    { result := JSResult.err JSError.lockAcquisition, state := s,
      actionRan := false, releaseCalls := 0, releaseFailures := 0 }

/-- Models String.prototype.trim as used on the file text (dados.trim()):
drop whitespace from both ends. -/
def jsTrim (s : String) : String :=
  String.mk (((s.data.dropWhile Char.isWhitespace).reverse.dropWhile
      Char.isWhitespace).reverse)

/-- Property lookup on a JS object's own fields (first match; parse
results never hold duplicate keys). -/
def fieldLookup (key : String) : List (String × Json) → Option Json
  | [] => none
  | (k, v) :: fs => if k = key then some v else fieldLookup key fs

/-- Result of evaluating the JS expression v.length: a thrown TypeError
(null), undefined, a number, or a value whose numeric coercion in the
comparisons is outside the modelled fragment. -/
inductive LenProp where
  | throws
  | undef
  | num (k : Int)
  | unmodeled
deriving Repr

/-- The length attribute of each JSON value as JS evaluates arr.length in
lerUsuarios: null throws a TypeError; arrays and strings have numeric
length (string length is counted in characters; identical to the host's
UTF-16 count for all non-astral text); numbers and booleans yield
undefined; an object yields its length member if present, else undefined.
An object length member that is not a JSON number coerces through JS
ToNumber inside the comparisons; that corner is marked unmodeled and no
theorem below depends on it. -/
def lengthProp : Json → LenProp
  | Json.null => LenProp.throws
  | Json.arr xs => LenProp.num xs.length
  | Json.str s => LenProp.num s.length
  | Json.num _ => LenProp.undef
  | Json.bool _ => LenProp.undef
  | Json.obj fs =>
    match fieldLookup ("length") fs with
    | none => LenProp.undef
    | some (Json.num k) => LenProp.num k
    | some _ => LenProp.unmodeled

/-- Models the call arr.slice(0, num) reached when num > 0 and
num <= arr.length: arrays and strings slice to their prefix; any other
value has no slice method and throws a TypeError (none). -/
def sliceVal : Json → Int → Option Json
  | Json.arr xs, num => some (Json.arr (xs.take num.toNat))
  | Json.str s, num => some (Json.str (String.mk (s.data.take num.toNat)))
  | _, _ => none

/-- Models the branch cascade of lerUsuarios lines 63-75 applied to the
parsed value, following JS evaluation order: the guard num > 0 is
evaluated before arr.length is touched (short-circuit), so for num <= 0
the first length access happens in the test num > arr.length. A none
result models a thrown TypeError (caught by the surrounding catch). The
unmodeled length corner returns the value itself arbitrarily; no theorem
depends on that branch. -/
def selectLimit (v : Json) (num : Int) : Option Json :=
  if 0 < num then
    match lengthProp v with
    | LenProp.throws => none
    | LenProp.undef => some (Json.arr [])
    | LenProp.num k => if num ≤ k then sliceVal v num else some v
    | LenProp.unmodeled => some v
  else
    match lengthProp v with
    | LenProp.throws => none
    | LenProp.undef => if num = 0 then some v else some (Json.arr [])
    | LenProp.num k =>
      if k < num then some v
      else if num = 0 then some v
      else some (Json.arr [])
    | LenProp.unmodeled => some v

/-- Models the try block of lerUsuarios lines 54-83: read the file (a
failed read throws into the catch, yielding []); trim; empty text yields
[]; JSON.parse failure throws into the catch, yielding []; otherwise the
branch cascade runs, its own TypeError also landing in the catch. -/
def lerBody (jparse : String → Option Json) (dados : Option String)
    (num : Int) : Json :=
  match dados with
  | none => Json.arr []
  | some text =>
    let texto := jsTrim text
    if texto = "" then Json.arr []
    else
      match jparse texto with
      | none => Json.arr []
      | some arr =>
        match selectLimit arr num with
        | none => Json.arr []
        | some res => res

/-- Models lerUsuarios lines 52-84: the read body runs under comLock; the
body never throws (its try/catch is total), and it does not modify the
file. readOk is the fs.readFile outcome. -/
def lerUsuarios (attemptOk : Nat → Bool) (releaseOk : Bool)
    (jparse : String → Option Json) (readOk : Bool) (num : Int)
    (file : String) : LockOutcome String Json :=
  comLock attemptOk releaseOk
    (fun f =>
      (JSResult.ok (lerBody jparse (if readOk then some f else none) num), f))
    file

/-- Hexadecimal digit (lowercase) for control-character escapes. -/
def hexDigit (n : Nat) : Char :=
  if n < 10 then Char.ofNat (48 + n) else Char.ofNat (87 + n)

/-- Escaping of one character inside a JSON string literal, as performed
by the host JSON.stringify. -/
def escapeChar (c : Char) : String :=
  if c = '"' then "\\\""
  else if c = '\\' then "\\\\"
  else if c = '\n' then "\\n"
  else if c = '\r' then "\\r"
  else if c = '\t' then "\\t"
  else if c.toNat = 8 then "\\b"
  else if c.toNat = 12 then "\\f"
  else if c.toNat < 32 then
    "\\u00" ++ String.mk [hexDigit (c.toNat / 16), hexDigit (c.toNat % 16)]
  else String.singleton c

/-- A JSON string literal: quote, escape each character, quote. -/
def quoteString (s : String) : String :=
  "\"" ++ String.join (s.data.map escapeChar) ++ "\""

/-- Indentation produced by the gap argument 2 of JSON.stringify. -/
def indentStr (n : Nat) : String := String.mk (List.replicate n ' ')

mutual

/-- Models the host JSON.stringify(v, null, 2) at nesting indentation ind:
atoms print on one line; empty arrays and objects print as two brackets;
non-empty ones open the bracket, print each entry on its own line
indented two further spaces, and close the bracket at the current
indentation. -/
def stringifyVal (ind : Nat) : Json → String
  | Json.null => "null"
  | Json.bool true => "true"
  | Json.bool false => "false"
  | Json.num n => toString n
  | Json.str s => quoteString s
  | Json.arr [] => "[]"
  | Json.arr (x :: xs) =>
    "[\n" ++ stringifyElems (ind + 2) x xs ++ "\n" ++ indentStr ind ++ "]"
  | Json.obj [] => "\x7b\x7d"
  | Json.obj ((k, v) :: fs) =>
    "\x7b\n" ++ stringifyMembers (ind + 2) k v fs ++ "\n" ++ indentStr ind
      ++ "\x7d"
termination_by v => sizeOf v

/-- Comma-and-newline separated array elements, each on a line indented
by ind. -/
def stringifyElems (ind : Nat) (x : Json) (xs : List Json) : String :=
  match xs with
  | [] => indentStr ind ++ stringifyVal ind x
  | y :: ys =>
    indentStr ind ++ stringifyVal ind x ++ ",\n" ++ stringifyElems ind y ys
termination_by sizeOf x + sizeOf xs

/-- Comma-and-newline separated object members, each on a line indented
by ind, rendered as quoted key, colon, space, value. -/
def stringifyMembers (ind : Nat) (k : String) (v : Json)
    (fs : List (String × Json)) : String :=
  match fs with
  | [] => indentStr ind ++ quoteString k ++ ": " ++ stringifyVal ind v
  | (k2, v2) :: gs =>
    indentStr ind ++ quoteString k ++ ": " ++ stringifyVal ind v ++ ",\n"
      ++ stringifyMembers ind k2 v2 gs
termination_by sizeOf v + sizeOf fs

end

/-- The serialization JSON.stringify(usuarios, null, 2) computed at line
99 of src/user-control.js. -/
def stringify2 (v : Json) : String := stringifyVal 0 v

/-- Models salvarUsuarios lines 96-106: under comLock, serialize the full
array and overwrite the file; a write failure is caught inside the body
and logged, so the body always resolves (to undefined) and on failure the
file keeps its previous content. writeOk is the fs.writeFile outcome. -/
def salvarUsuarios (attemptOk : Nat → Bool) (releaseOk : Bool)
    (writeOk : Bool) (usuarios : List Json) (file : String) :
    LockOutcome String Unit :=
  comLock attemptOk releaseOk
    (fun f =>
      if writeOk then (JSResult.ok (), stringify2 (Json.arr usuarios))
      else (JSResult.ok (), f))
    file

/-- Limit selection exactly as the specification words it, case by case
on the parsed collection of length L: all records when the limit is 0,
all records when the limit exceeds L, the first limit records when
0 < limit <= L, and the empty collection when the limit is negative. -/
def readLimitSpec (xs : List Json) (num : Int) : List Json :=
  if num = 0 then xs
  else if (xs.length : Int) < num then xs
  else if 0 < num then xs.take num.toNat
  else []

/-- Concrete parse function recognising the serialized empty array, used
to instantiate the abstract host codec in witnesses. -/
def jparseEmptyArr : String → Option Json :=
  fun s => if s = "[]" then some (Json.arr []) else none

/-- Concrete parse function recognising the three-element array 1, 2, 3,
used to instantiate the abstract host codec in witnesses. -/
def jparseOneTwoThree : String → Option Json :=
  fun s =>
    if s = "[1,2,3]" then
      some (Json.arr [Json.num 1, Json.num 2, Json.num 3])
    else none

/-- Concrete parse function recognising the literal null, used to
instantiate the abstract host codec in witnesses. -/
def jparseNullLit : String → Option Json :=
  fun s => if s = "null" then some Json.null else none

/-- Concrete parse function recognising the number literal 7, used to
instantiate the abstract host codec in witnesses. -/
def jparseSeven : String → Option Json :=
  fun s => if s = "7" then some (Json.num 7) else none

/-- Concrete parse function rejecting every input, modelling JSON.parse
on malformed content in witnesses. -/
def jparseNever : String → Option Json := fun _ => none

/-- Helper: an element on which the predicate is false survives dropWhile. -/
theorem mem_dropWhile_of_neg {α : Type} (p : α → Bool) (l : List α) (x : α)
    (hx : x ∈ l) (hp : p x = false) : x ∈ l.dropWhile p := by
  induction l with
  | nil => cases hx
  | cons a t ih =>
    rw [List.dropWhile_cons]
    rcases List.mem_cons.mp hx with h | h
    · subst h
      rw [if_neg (by rw [hp]; exact Bool.false_ne_true)]
      exact List.mem_cons_self _ _
    · by_cases hpa : p a = true
      · rw [if_pos hpa]
        exact ih h
      · rw [if_neg hpa]
        exact List.mem_cons_of_mem a h

/-- Helper: a string holding a non-whitespace character does not trim to
the empty string. -/
theorem jsTrim_ne_of_mem {s : String} {c : Char} (hc : c ∈ s.data)
    (hw : c.isWhitespace = false) : jsTrim s ≠ "" := by
  intro h
  have h1 := mem_dropWhile_of_neg Char.isWhitespace s.data c hc hw
  have h2 := mem_dropWhile_of_neg Char.isWhitespace _ c
    (List.mem_reverse.mpr h1) hw
  have h3 : c ∈ (jsTrim s).data := by
    rw [jsTrim]
    exact List.mem_reverse.mpr h2
  rw [h] at h3
  cases h3

/-- Helper: the serialization of an array always contains its opening
bracket. -/
theorem bracket_mem_stringify2_arr (xs : List Json) :
    '[' ∈ (stringify2 (Json.arr xs)).data := by
  cases xs with
  | nil =>
    rw [stringify2, stringifyVal]
    decide
  | cons x t =>
    rw [stringify2, stringifyVal]
    simp only [String.data_append]
    exact List.mem_append_left _ (List.mem_append_left _
      (List.mem_append_left _ (List.mem_append_left _ (by decide))))

/-- Helper: if every attempt within the retry bound fails, acquisition
fails. -/
theorem lockAcquired_eq_false {a : Nat → Bool}
    (h : ∀ i, i < lockAttempts → a i = false) : lockAcquired a = false := by
  rw [lockAcquired, List.any_eq_false]
  intro i hi
  rw [h i (List.mem_range.mp hi)]
  exact Bool.false_ne_true

/-- Helper: on a parsed array the branch cascade computes exactly the
specification's limit-selection function. -/
theorem selectLimit_arr (xs : List Json) (num : Int) :
    selectLimit (Json.arr xs) num = some (Json.arr (readLimitSpec xs num)) := by
  rcases lt_trichotomy num 0 with h | h | h
  · have h1 : ¬ 0 < num := by omega
    have h2 : ¬ (xs.length : Int) < num := by omega
    have h3 : ¬ num = 0 := by omega
    simp [selectLimit, readLimitSpec, lengthProp, h1, h2, h3]
  · subst h
    have h2 : ¬ (xs.length : Int) < 0 := by omega
    simp [selectLimit, readLimitSpec, lengthProp, h2]
  · have h1 : ¬ num = 0 := by omega
    by_cases hle : num ≤ (xs.length : Int)
    · have h2 : ¬ (xs.length : Int) < num := by omega
      simp [selectLimit, readLimitSpec, lengthProp, h, h1, h2, hle, sliceVal]
    · have h2 : (xs.length : Int) < num := by omega
      simp [selectLimit, readLimitSpec, lengthProp, h, h1, h2, hle]

/-- Helper: once the lock is acquired, the read call settles to the value
of its body. -/
theorem lerUsuarios_result_acquired (attemptOk : Nat → Bool)
    (releaseOk : Bool) (jparse : String → Option Json) (readOk : Bool)
    (num : Int) (file : String) (hacq : lockAcquired attemptOk = true) :
    (lerUsuarios attemptOk releaseOk jparse readOk num file).result
      = JSResult.ok (lerBody jparse (if readOk then some file else none) num) := by
  simp [lerUsuarios, comLock, hacq]

/-- C1: for every parsed collection of length L and every integer limit,
read(limit) returns all L records when limit is 0 or exceeds L, the first
limit records in insertion order when 0 < limit <= L, and the empty
collection when limit is negative. -/
theorem limit_selection (attemptOk : Nat → Bool) (releaseOk : Bool)
    (jparse : String → Option Json) (file : String) (xs : List Json)
    (num : Int) (hacq : lockAcquired attemptOk = true)
    (hne : jsTrim file ≠ "")
    (hparse : jparse (jsTrim file) = some (Json.arr xs)) :
    (lerUsuarios attemptOk releaseOk jparse true num file).result
      = JSResult.ok (Json.arr (readLimitSpec xs num)) := by
  rw [lerUsuarios_result_acquired attemptOk releaseOk jparse true num file hacq]
  simp [lerBody, hne, hparse, selectLimit_arr]

/-- Witness for C1 at the collection 1, 2, 3 and limit 2: the first two
records are returned. -/
theorem limit_selection_witness :
    (lerUsuarios (fun _ => true) true jparseOneTwoThree true 2 ("[1,2,3]")).result
      = JSResult.ok (Json.arr [Json.num 1, Json.num 2]) := by
  have h := limit_selection (fun _ => true) true jparseOneTwoThree ("[1,2,3]")
    [Json.num 1, Json.num 2, Json.num 3] 2 rfl (by decide) rfl
  rw [h]
  rfl

/-- C2: writing a sequence and then reading with limit 0, with no
intervening write, returns the same records in the same order, given that
both calls acquire the lock, the I/O succeeds, and the host JSON codec
round-trips on the serialized text. -/
theorem write_read_roundtrip (a1 a2 : Nat → Bool) (r1 r2 : Bool)
    (jparse : String → Option Json) (xs : List Json) (file0 : String)
    (h1 : lockAcquired a1 = true) (h2 : lockAcquired a2 = true)
    (hcodec : jparse (jsTrim (stringify2 (Json.arr xs))) = some (Json.arr xs)) :
    (lerUsuarios a2 r2 jparse true 0
        (salvarUsuarios a1 r1 true xs file0).state).result
      = JSResult.ok (Json.arr xs) := by
  have hstate : (salvarUsuarios a1 r1 true xs file0).state
      = stringify2 (Json.arr xs) := by
    simp [salvarUsuarios, comLock, h1]
  rw [hstate]
  have hne : jsTrim (stringify2 (Json.arr xs)) ≠ "" :=
    jsTrim_ne_of_mem (bracket_mem_stringify2_arr xs) (by decide)
  rw [lerUsuarios_result_acquired a2 r2 jparse true 0
    (stringify2 (Json.arr xs)) h2]
  simp [lerBody, hne, hcodec, selectLimit_arr, readLimitSpec]

/-- Witness for C2 at the empty sequence: write then read with limit 0
returns the empty array. -/
theorem write_read_roundtrip_witness :
    (lerUsuarios (fun _ => true) true jparseEmptyArr true 0
        (salvarUsuarios (fun _ => true) true true [] ("old")).state).result
      = JSResult.ok (Json.arr []) :=
  write_read_roundtrip (fun _ => true) (fun _ => true) true true
    jparseEmptyArr [] ("old") rfl rfl (by rw [stringify2, stringifyVal]; rfl)

/-- C3 counterexample: when every lock acquisition attempt fails, the
read call rejects with the lock acquisition error instead of returning a
collection, refuting the claim that read never fails to the caller on
the lock-acquisition path. -/
theorem read_lockfail_rejects :
    (lerUsuarios (fun _ => false) true jparseNever true 0 ("")).result
      = JSResult.err JSError.lockAcquisition := rfl

/-- C3 amended: once the lock is acquired, read always resolves to a
value (its body swallows read and parse failures), and on an I/O failure
of the underlying file read it resolves to the empty collection; only
lock acquisition failure escapes to the caller. -/
theorem read_resolves_when_locked (attemptOk : Nat → Bool) (releaseOk : Bool)
    (jparse : String → Option Json) (readOk : Bool) (num : Int)
    (file : String) (hacq : lockAcquired attemptOk = true) :
    (lerUsuarios attemptOk releaseOk jparse readOk num file).result
      = JSResult.ok (lerBody jparse (if readOk then some file else none) num)
    ∧ (readOk = false →
      (lerUsuarios attemptOk releaseOk jparse readOk num file).result
        = JSResult.ok (Json.arr [])) := by
  constructor
  · simp [lerUsuarios, comLock, hacq]
  · intro h
    subst h
    simp [lerUsuarios, comLock, hacq, lerBody]

/-- Witness for the amended C3: with the lock acquired and the file read
failing, read resolves to the empty array. -/
theorem read_resolves_when_locked_witness :
    (lerUsuarios (fun _ => true) true jparseNever false 3 ("whatever")).result
      = JSResult.ok (Json.arr []) :=
  (read_resolves_when_locked (fun _ => true) true jparseNever false 3
    ("whatever") rfl).2 rfl

/-- C4: with the lock acquired, empty or whitespace-only file content
reads as the empty collection without error, and non-empty content on
which JSON.parse fails also reads as the empty collection, the failure
being swallowed rather than propagated. -/
theorem empty_or_invalid_reads_empty (attemptOk : Nat → Bool)
    (releaseOk : Bool) (jparse : String → Option Json) (file : String)
    (num : Int) (hacq : lockAcquired attemptOk = true) :
    (jsTrim file = "" →
      (lerUsuarios attemptOk releaseOk jparse true num file).result
        = JSResult.ok (Json.arr []))
    ∧ (jsTrim file ≠ "" → jparse (jsTrim file) = none →
      (lerUsuarios attemptOk releaseOk jparse true num file).result
        = JSResult.ok (Json.arr [])) := by
  constructor
  · intro h
    simp [lerUsuarios, comLock, hacq, lerBody, h]
  · intro h1 h2
    simp [lerUsuarios, comLock, hacq, lerBody, h1, h2]

/-- Witness for C4: a whitespace-only file and a malformed file both read
as the empty array. -/
theorem empty_or_invalid_reads_empty_witness :
    (lerUsuarios (fun _ => true) true jparseNever true 0 ("   ")).result
      = JSResult.ok (Json.arr [])
    ∧ (lerUsuarios (fun _ => true) true jparseNever true 0 ("?!?")).result
      = JSResult.ok (Json.arr []) :=
  ⟨(empty_or_invalid_reads_empty (fun _ => true) true jparseNever ("   ") 0
      rfl).1 rfl,
   (empty_or_invalid_reads_empty (fun _ => true) true jparseNever ("?!?") 0
      rfl).2 (by decide) rfl⟩

/-- C5: a successful write under an acquired lock leaves the backing file
holding exactly the pretty-printed serialization of the full sequence,
whatever content the file held before. -/
theorem write_overwrites_file (attemptOk : Nat → Bool) (releaseOk : Bool)
    (usuarios : List Json) (file : String)
    (hacq : lockAcquired attemptOk = true) :
    (salvarUsuarios attemptOk releaseOk true usuarios file).state
      = stringify2 (Json.arr usuarios) := by
  simp [salvarUsuarios, comLock, hacq]

/-- Witness for C5: writing the one-record sequence 1 over unrelated old
content leaves the file holding its two-space-indented serialization. -/
theorem write_overwrites_file_witness :
    (salvarUsuarios (fun _ => true) true true [Json.num 1] ("old")).state
      = "[\n  1\n]" := by
  have h := write_overwrites_file (fun _ => true) true [Json.num 1] ("old") rfl
  rw [h, stringify2, stringifyVal, stringifyElems]
  rw [stringifyVal]
  rfl

/-- C6: with the lock acquired, the write call always resolves normally,
in particular when the underlying file write fails: the failure is caught
inside the body and never propagated to the caller. -/
theorem write_failure_swallowed (attemptOk : Nat → Bool)
    (releaseOk writeOk : Bool) (usuarios : List Json) (file : String)
    (hacq : lockAcquired attemptOk = true) :
    (salvarUsuarios attemptOk releaseOk writeOk usuarios file).result
      = JSResult.ok () := by
  cases writeOk <;> simp [salvarUsuarios, comLock, hacq]

/-- Witness for C6: a write whose underlying file write fails still
resolves normally. -/
theorem write_failure_swallowed_witness :
    (salvarUsuarios (fun _ => true) true false [Json.num 1] ("f")).result
      = JSResult.ok () :=
  write_failure_swallowed (fun _ => true) true false [Json.num 1] ("f") rfl

/-- C7: when every acquisition attempt within the retry bound fails, the
wrapped call rejects with the lock acquisition error, the wrapped action
never runs, and the backing file state is untouched. -/
theorem lock_exhaustion_fails {σ α : Type} (attemptOk : Nat → Bool)
    (releaseOk : Bool) (fn : σ → JSResult α × σ) (s : σ)
    (h : ∀ i, i < lockAttempts → attemptOk i = false) :
    (comLock attemptOk releaseOk fn s).result
      = JSResult.err JSError.lockAcquisition
    ∧ (comLock attemptOk releaseOk fn s).actionRan = false
    ∧ (comLock attemptOk releaseOk fn s).state = s := by
  have hl : lockAcquired attemptOk = false := lockAcquired_eq_false h
  simp [comLock, hl]

/-- Witness for C7: with all attempts failing, an action that would
append to the file never runs and the state is unchanged. -/
theorem lock_exhaustion_fails_witness :
    (comLock (fun _ => false) true
        (fun f : String => (JSResult.ok (), f ++ "!")) ("f")).result
      = JSResult.err JSError.lockAcquisition
    ∧ (comLock (fun _ => false) true
        (fun f : String => (JSResult.ok (), f ++ "!")) ("f")).actionRan = false
    ∧ (comLock (fun _ => false) true
        (fun f : String => (JSResult.ok (), f ++ "!")) ("f")).state = "f" :=
  lock_exhaustion_fails (fun _ => false) true
    (fun f : String => (JSResult.ok (), f ++ "!")) ("f") (fun _ _ => rfl)

/-- C8: once the lock is acquired the release function is invoked exactly
once whether the wrapped action resolves or rejects, and the call's
result is exactly the action's own result for either release outcome, so
a release failure never masks it. -/
theorem lock_release_scoped {σ α : Type} (attemptOk : Nat → Bool)
    (releaseOk : Bool) (fn : σ → JSResult α × σ) (s : σ)
    (hacq : lockAcquired attemptOk = true) :
    (comLock attemptOk releaseOk fn s).releaseCalls = 1
    ∧ (comLock attemptOk releaseOk fn s).result = (fn s).1 := by
  simp [comLock, hacq]

/-- Witness for C8: a failing release combined with an action that throws
still yields one release call and the action's own error as the result. -/
theorem lock_release_scoped_witness :
    (comLock (fun _ => true) false
        (fun f : String => ((JSResult.err (JSError.js ("boom")) : JSResult Unit), f))
        ("st")).releaseCalls = 1
    ∧ (comLock (fun _ => true) false
        (fun f : String => ((JSResult.err (JSError.js ("boom")) : JSResult Unit), f))
        ("st")).result = JSResult.err (JSError.js ("boom")) :=
  lock_release_scoped (fun _ => true) false
    (fun f : String => ((JSResult.err (JSError.js ("boom")) : JSResult Unit), f)) ("st") rfl

/-- C10 counterexample: on file content null, a valid non-array JSON
document, read with limit 0 returns the empty array rather than the
parsed value unchanged, because the length access on null throws a
TypeError that the catch turns into the empty array. -/
theorem nonarray_null_read_counterexample :
    (lerUsuarios (fun _ => true) true jparseNullLit true 0 ("null")).result
      = JSResult.ok (Json.arr [])
    ∧ Json.arr [] ≠ Json.null :=
  ⟨rfl, fun h => Json.noConfusion h⟩

/-- C10 amended: for parsed non-array content whose length attribute is
undefined, that is a number, a boolean, or an object with no length
member, read with limit 0 returns the parsed value unchanged and read
with any nonzero limit returns the empty collection; for parsed null,
read returns the empty collection at every limit, the length access
throwing a TypeError that is caught. -/
theorem nonarray_read_behavior (attemptOk : Nat → Bool) (releaseOk : Bool)
    (jparse : String → Option Json) (file : String) (v : Json) (num : Int)
    (hacq : lockAcquired attemptOk = true) (hne : jsTrim file ≠ "")
    (hparse : jparse (jsTrim file) = some v) :
    (lengthProp v = LenProp.undef →
      (lerUsuarios attemptOk releaseOk jparse true 0 file).result
        = JSResult.ok v
      ∧ (num ≠ 0 →
        (lerUsuarios attemptOk releaseOk jparse true num file).result
          = JSResult.ok (Json.arr [])))
    ∧ (v = Json.null →
      (lerUsuarios attemptOk releaseOk jparse true num file).result
        = JSResult.ok (Json.arr [])) := by
  constructor
  · intro hu
    constructor
    · simp [lerUsuarios, comLock, hacq, lerBody, hne, hparse, selectLimit, hu]
    · intro hnz
      by_cases hpos : 0 < num
      · simp [lerUsuarios, comLock, hacq, lerBody, hne, hparse, selectLimit,
          hu, hpos]
      · simp [lerUsuarios, comLock, hacq, lerBody, hne, hparse, selectLimit,
          hu, hpos, hnz]
  · intro hv
    subst hv
    by_cases hpos : 0 < num
    · simp [lerUsuarios, comLock, hacq, lerBody, hne, hparse, selectLimit,
        lengthProp, hpos]
    · simp [lerUsuarios, comLock, hacq, lerBody, hne, hparse, selectLimit,
        lengthProp, hpos]

/-- Witness for the amended C10: file content 7 parses to a number and
read with limit 0 returns that number unchanged. -/
theorem nonarray_read_behavior_witness :
    (lerUsuarios (fun _ => true) true jparseSeven true 0 ("7")).result
      = JSResult.ok (Json.num 7) :=
  ((nonarray_read_behavior (fun _ => true) true jparseSeven ("7")
      (Json.num 7) 5 rfl (by decide) rfl).1 rfl).1
